import Mathlib

/-!
Order pricing, order status and product pagination of node-novotech-api.

A shallow embedding of three request handlers:

* `createOrder` and `updateOrderStatus` of `src/controllers/orderController.js`,
* the pagination block of `getProducts` of `src/controllers/productController.js`.

Conventions of the embedding.

* JavaScript numbers are embedded as exact rationals (`ℚ`): the handlers only add,
  subtract, multiply and divide by 100. The two agree wherever every intermediate
  value is exactly representable as a double (for instance integers below `2^53`).
* A database collection is a list of documents in natural order; `findOne` and
  `findById` return the first matching document, `create` appends one document.
  Store calls themselves are taken to complete (no connection failure).
* A handler returns an outcome: the status passed to `res.status` (if it was
  called), the reply (a thrown error message or the body sent), the order
  collection after the call and the log of collaborator calls, oldest first.
* The mongoose schemas of users, coupons and orders are not part of the sources
  read here; a document carries exactly the fields the handlers read or write.
-/

namespace Novotech

/-! ## Documents -/

/-- One entry of `req.body.orderItems`, with the fields `createOrder` reads. -/
structure OrderItem where
  name : String
  description : String
  price : ℚ
  quantity : ℚ
  deriving DecidableEq

/-- User document: the fields read by `createOrder`. -/
structure User where
  _id : Nat
  hasShippingAddress : Bool
  shippingAddress : String
  deriving DecidableEq

/-- Coupon document: the fields read by `createOrder`. -/
structure Coupon where
  _id : Nat
  code : String
  discount : ℚ
  IsExpired : Bool
  deriving DecidableEq

/-- Order document: the fields written by `Order.create` in `createOrder`, and `status`. -/
structure Order where
  _id : Nat
  user : Nat
  orderItems : List OrderItem
  shippingAddress : String
  totalPrice : ℚ
  coupon : Option Nat
  status : String
  deriving DecidableEq

/-- The three collections the order handlers touch. -/
structure Store where
  users : List User
  coupons : List Coupon
  orders : List Order

/-! ## The checkout session request -/

/-- One element of `line_items` in the call `stripe.checkout.sessions.create`. -/
structure LineItem where
  currency : String
  name : String
  description : String
  unit_amount : ℚ
  quantity : ℚ
  deriving DecidableEq

/-- Argument of `stripe.checkout.sessions.create`; `order_id` and `total_price`
are the two metadata entries. -/
structure SessionParams where
  line_items : List LineItem
  order_id : Nat
  total_price : ℚ
  mode : String
  success_url : String
  cancel_url : String
  deriving DecidableEq

/-- What lies outside the handlers: the Unicode upper-casing of characters beyond
ASCII, the identifier and the default status a new order document receives, and
the payment provider (it answers with a session url or throws a message). -/
structure Collaborators where
  upperOther : Char → List Char
  newOrderId : List Order → Nat
  defaultStatus : String
  checkout : SessionParams → Except String String

/-- Collaborator calls, as recorded in an outcome's log. -/
inductive Effect where
  | userFindById (id : Nat)
  | couponFindOne (code : String)
  | orderCreate (order : Order)
  | checkoutSessionCreate (params : SessionParams)
  | orderFindByIdAndUpdate (id : Nat) (status : String)
  deriving DecidableEq

/-- Reply of a handler: an error thrown to the error middleware, or a body sent. -/
inductive Reply (β : Type) where
  | thrown (message : String)
  | sent (body : β)
  deriving DecidableEq

/-- Outcome of an order handler. -/
structure Outcome (β : Type) where
  status : Option Nat
  reply : Reply β
  orders : List Order
  log : List Effect

/-- The request fields `createOrder` reads: `req.user`, `req.body.orderItems`
(`none` when the value is not an array) and `req.query.coupon`. -/
structure Request where
  user : Nat
  orderItems : Option (List OrderItem)
  coupon : Option String

/-! ## createOrder -/

/-- `String.prototype.toUpperCase` on one character: ASCII letters are mapped by
the ASCII rule, any other character by the Unicode table `other`. -/
def upperChar (other : Char → List Char) (c : Char) : List Char :=
  if c.toNat < 128 then [c.toUpper] else other c

/-- `String.prototype.toUpperCase`. -/
def toUpperCase (other : Char → List Char) (s : String) : String :=
  String.mk ((s.data.map (upperChar other)).flatten)

/-- `User.findById(id)`. -/
def User.findById (users : List User) (id : Nat) : Option User :=
  users.find? (fun u => u._id == id)

/-- `Coupon.findOne({ code })`. -/
def Coupon.findOne (coupons : List Coupon) (code : String) : Option Coupon :=
  coupons.find? (fun c => c.code == code)

/-- The reducer `orderItems.reduce((acc, item) => acc + item.price * item.quantity, 0)`. -/
def reduceTotal (orderItems : List OrderItem) : ℚ :=
  orderItems.foldl (fun acc item => acc + item.price * item.quantity) 0

/-- The `line_items` mapping of the checkout call. -/
def lineItems (orderItems : List OrderItem) : List LineItem :=
  orderItems.map (fun item =>
    { currency := "usd", name := item.name, description := item.description,
      unit_amount := item.price * 100, quantity := item.quantity })

/-- The document that `Order.create` of lines 75 to 81 adds to the collection. -/
def newOrder (w : Collaborators) (db : Store) (req : Request) (user : User)
    (orderItems : List OrderItem) (totalPrice : ℚ) (couponFound : Option Coupon) : Order :=
  { _id := w.newOrderId db.orders, user := req.user, orderItems := orderItems,
    shippingAddress := user.shippingAddress, totalPrice := totalPrice,
    coupon := couponFound.map (fun c => c._id), status := w.defaultStatus }

/-- The argument of the checkout call of lines 84 to 105. -/
def sessionParams (order : Order) (orderItems : List OrderItem) (totalPrice : ℚ) :
    SessionParams :=
  { line_items := lineItems orderItems, order_id := order._id,
    total_price := totalPrice * 100, mode := "payment",
    success_url := "http://localhost:3000/success",
    cancel_url := "http://localhost:3000/cancel" }

/-- Lines 74 to 108 of `createOrder`: persist the order, then ask for the
checkout session and send its url. -/
def persistAndCheckout (w : Collaborators) (db : Store) (req : Request) (user : User)
    (orderItems : List OrderItem) (totalPrice : ℚ) (couponFound : Option Coupon)
    (log : List Effect) : Outcome String :=
  let order := newOrder w db req user orderItems totalPrice couponFound
  let params := sessionParams order orderItems totalPrice
  let log2 := log ++ [Effect.orderCreate order, Effect.checkoutSessionCreate params]
  match w.checkout params with
  | .error message => ⟨none, .thrown message, db.orders ++ [order], log2⟩
  | .ok url => ⟨none, .sent url, db.orders ++ [order], log2⟩

/-- The handler `createOrder`. -/
def createOrder (w : Collaborators) (db : Store) (req : Request) : Outcome String :=
  let log0 := [Effect.userFindById req.user]
  match User.findById db.users req.user with
  | none =>
    ⟨none, .thrown "TypeError: Cannot read properties of null", db.orders, log0⟩
  | some user =>
    if !user.hasShippingAddress then
      ⟨some 400, .thrown "Please add a shipping address", db.orders, log0⟩
    else
      match req.orderItems with
      | none => ⟨some 400, .thrown "No order items", db.orders, log0⟩
      | some [] => ⟨some 400, .thrown "No order items", db.orders, log0⟩
      | some (item :: rest) =>
        let orderItems := item :: rest
        match req.coupon with
        | none =>
          persistAndCheckout w db req user orderItems (reduceTotal orderItems) none log0
        | some coupon =>
          if coupon = "" then
            persistAndCheckout w db req user orderItems (reduceTotal orderItems) none log0
          else
            let code := toUpperCase w.upperOther coupon
            let log1 := log0 ++ [Effect.couponFindOne code]
            match Coupon.findOne db.coupons code with
            | none => ⟨some 400, .thrown "Coupon not found", db.orders, log1⟩
            | some couponFound =>
              if couponFound.IsExpired then
                ⟨some 400, .thrown "Coupon is Expired", db.orders, log1⟩
              else
                let totalPrice := reduceTotal orderItems
                let discount := (totalPrice * couponFound.discount) / 100
                persistAndCheckout w db req user orderItems (totalPrice - discount)
                  (some couponFound) log1

/-! ## updateOrderStatus -/

/-- The update `{ status }` applied to one order document. -/
def Order.setStatus (o : Order) (status : String) : Order :=
  { o with status := status }

/-- `Order.findByIdAndUpdate(id, { status }, { new: true })`: the first order with
that id has its status overwritten; the updated document is returned. -/
def Order.findByIdAndUpdate (id : Nat) (status : String) :
    List Order → Option Order × List Order
  | [] => (none, [])
  | o :: rest =>
    if o._id == id then
      (some (o.setStatus status), o.setStatus status :: rest)
    else
      ((Order.findByIdAndUpdate id status rest).1,
        o :: (Order.findByIdAndUpdate id status rest).2)

/-- Body sent by `updateOrderStatus`. -/
structure UpdateBody where
  success : Bool
  message : String
  updateOrder : Order
  deriving DecidableEq

/-- The handler `updateOrderStatus`, for `req.params.id = id` and
`req.body.status = status`. -/
def updateOrderStatus (db : Store) (id : Nat) (status : String) : Outcome UpdateBody :=
  let log := [Effect.orderFindByIdAndUpdate id status]
  match Order.findByIdAndUpdate id status db.orders with
  | (none, _) => ⟨some 404, .thrown "Order not found", db.orders, log⟩
  | (some updateOrder, orders) =>
    ⟨none, .sent { success := true, message := "Order updated", updateOrder := updateOrder },
      orders, log⟩

/-! ## getProducts: pagination -/

/-- A logged call is a coupon lookup. -/
def Effect.isCouponLookup : Effect → Bool
  | .couponFindOne _ => true
  | _ => false

/-- A logged call persists an order. -/
def Effect.isPersist : Effect → Bool
  | .orderCreate _ => true
  | _ => false

/-- A logged call asks the payment provider for a checkout session. -/
def Effect.isPayment : Effect → Bool
  | .checkoutSessionCreate _ => true
  | _ => false

/-- The amount the checkout line items ask for: the sum of `unit_amount * quantity`. -/
def lineItemsAmount (items : List LineItem) : ℚ :=
  (items.map (fun l => l.unit_amount * l.quantity)).sum

/-- The checkout calls recorded in a log, oldest first. -/
def checkoutCalls (log : List Effect) : List SessionParams :=
  log.filterMap (fun e =>
    match e with
    | .checkoutSessionCreate p => some p
    | _ => none)

/-! ## Letter case -/

/-- Collaborators of the examples: characters beyond ASCII are left as they are,
a new order takes the collection size as its identifier and the status `pending`,
and the payment provider answers with a session url. -/
def sampleWorld : Collaborators :=
  { upperOther := fun c => [c], newOrderId := fun orders => orders.length,
    defaultStatus := "pending",
    checkout := fun _ => .ok "https://checkout.example/session" }

/-- As `sampleWorld`, with a payment provider that throws. -/
def failingWorld : Collaborators :=
  { sampleWorld with checkout := fun _ => .error "StripeConnectionError" }

/-- The items `[{price:20,quantity:2},{price:5,quantity:1}]`. -/
def sampleItems : List OrderItem :=
  [{ name := "shirt", description := "cotton", price := 20, quantity := 2 },
   { name := "cap", description := "wool", price := 5, quantity := 1 }]

/-- One user with a shipping address (id 1) and one without (id 2); three coupons. -/
def sampleStore : Store :=
  { users := [{ _id := 1, hasShippingAddress := true, shippingAddress := "1 Main St" },
              { _id := 2, hasShippingAddress := false, shippingAddress := "" }],
    coupons := [{ _id := 7, code := "SAVE20", discount := 20, IsExpired := false },
                { _id := 8, code := "OLD", discount := 50, IsExpired := true },
                { _id := 9, code := "BIG150", discount := 150, IsExpired := false }],
    orders := [] }

/-- One item whose subtotal is 100. -/
def hundredItems : List OrderItem :=
  [{ name := "boots", description := "leather", price := 100, quantity := 1 }]

/-- Two stored orders, with identifiers 10 and 11. -/
def sampleOrders : List Order :=
  [{ _id := 10, user := 1, orderItems := sampleItems, shippingAddress := "1 Main St",
     totalPrice := 45, coupon := none, status := "pending" },
   { _id := 11, user := 1, orderItems := hundredItems, shippingAddress := "1 Main St",
     totalPrice := 90, coupon := some 3, status := "shipped" }]

/-- The sample store holding `sampleOrders`. -/
def orderStore : Store := { sampleStore with orders := sampleOrders }

/-! ## Pricing -/

theorem foldl_add_mul (items : List OrderItem) (a : ℚ) :
    items.foldl (fun acc item => acc + item.price * item.quantity) a
      = a + (items.map (fun i => i.price * i.quantity)).sum := by
  induction items generalizing a with
  | nil => simp
  | cons i rest ih => simp [ih, add_assoc]

theorem reduceTotal_eq_sum (items : List OrderItem) :
    reduceTotal items = (items.map (fun i => i.price * i.quantity)).sum := by
  simp [reduceTotal, foldl_add_mul]

theorem persistAndCheckout_orders (w : Collaborators) (db : Store) (req : Request)
    (user : User) (orderItems : List OrderItem) (totalPrice : ℚ)
    (couponFound : Option Coupon) (log : List Effect) :
    (persistAndCheckout w db req user orderItems totalPrice couponFound log).orders
      = db.orders ++ [newOrder w db req user orderItems totalPrice couponFound] := by
  unfold persistAndCheckout
  dsimp only
  split <;> rfl

/-- With a user that has a shipping address, a non-empty item list and no coupon
code, the handler runs lines 69 to 108 on the plain subtotal. -/
theorem createOrder_no_coupon (w : Collaborators) (db : Store) (req : Request)
    (user : User) (item : OrderItem) (rest : List OrderItem)
    (huser : User.findById db.users req.user = some user)
    (haddr : user.hasShippingAddress = true)
    (hitems : req.orderItems = some (item :: rest))
    (hcoupon : req.coupon = none ∨ req.coupon = some "") :
    createOrder w db req
      = persistAndCheckout w db req user (item :: rest) (reduceTotal (item :: rest)) none
          [Effect.userFindById req.user] := by
  rcases hcoupon with h | h <;> simp [createOrder, huser, haddr, hitems, h]

/-- With a user that has a shipping address, a non-empty item list and the code of
a coupon that is found and not expired, the handler runs lines 59 to 108 on the
discounted total. -/
theorem createOrder_accepted_coupon (w : Collaborators) (db : Store) (req : Request)
    (user : User) (item : OrderItem) (rest : List OrderItem) (code : String) (c : Coupon)
    (huser : User.findById db.users req.user = some user)
    (haddr : user.hasShippingAddress = true)
    (hitems : req.orderItems = some (item :: rest))
    (hcoupon : req.coupon = some code) (hcode : code ≠ "")
    (hfound : Coupon.findOne db.coupons (toUpperCase w.upperOther code) = some c)
    (hlive : c.IsExpired = false) :
    createOrder w db req
      = persistAndCheckout w db req user (item :: rest)
          (reduceTotal (item :: rest) - reduceTotal (item :: rest) * c.discount / 100) (some c)
          ([Effect.userFindById req.user]
            ++ [Effect.couponFindOne (toUpperCase w.upperOther code)]) := by
  simp [createOrder, huser, haddr, hitems, hcoupon, hcode, hfound, hlive]

/-- C3: for a user with a shipping address, when `orderItems` is not an array or
is the empty array, `createOrder` sets status 400 and throws "No order items";
the order collection is unchanged and the log holds no order creation and no
checkout call. -/
theorem createOrder_no_items (w : Collaborators) (db : Store) (req : Request) (user : User)
    (huser : User.findById db.users req.user = some user)
    (haddr : user.hasShippingAddress = true)
    (hitems : req.orderItems = none ∨ req.orderItems = some []) :
    (createOrder w db req).status = some 400 ∧
    (createOrder w db req).reply = .thrown "No order items" ∧
    (createOrder w db req).orders = db.orders ∧
    ∀ e ∈ (createOrder w db req).log, e.isPersist = false ∧ e.isPayment = false := by
  rcases hitems with h | h <;>
    simp [createOrder, huser, haddr, h, Effect.isPersist, Effect.isPayment]

/-- C3 on the sample store, for a body without an item array and with an empty one. -/
theorem createOrder_no_items_witness :
    ((createOrder sampleWorld sampleStore ⟨1, none, some "save20"⟩).status = some 400 ∧
      (createOrder sampleWorld sampleStore ⟨1, none, some "save20"⟩).reply
        = .thrown "No order items" ∧
      (createOrder sampleWorld sampleStore ⟨1, none, some "save20"⟩).orders = [] ∧
      ∀ e ∈ (createOrder sampleWorld sampleStore ⟨1, none, some "save20"⟩).log,
        e.isPersist = false ∧ e.isPayment = false) ∧
    (createOrder sampleWorld sampleStore ⟨1, some [], none⟩).reply
      = .thrown "No order items" :=
  ⟨createOrder_no_items sampleWorld sampleStore ⟨1, none, some "save20"⟩
      ⟨1, true, "1 Main St"⟩ rfl rfl (Or.inl rfl),
    (createOrder_no_items sampleWorld sampleStore ⟨1, some [], none⟩
      ⟨1, true, "1 Main St"⟩ rfl rfl (Or.inr rfl)).2.1⟩

/-- C4: when the user document has `hasShippingAddress` false, `createOrder` sets
status 400 and throws, whatever the items and the coupon code; the order
collection is unchanged and the log holds no coupon lookup, no order creation
and no checkout call. -/
theorem createOrder_no_shipping_address (w : Collaborators) (db : Store) (req : Request)
    (user : User)
    (huser : User.findById db.users req.user = some user)
    (haddr : user.hasShippingAddress = false) :
    (createOrder w db req).status = some 400 ∧
    (createOrder w db req).reply = .thrown "Please add a shipping address" ∧
    (createOrder w db req).orders = db.orders ∧
    ∀ e ∈ (createOrder w db req).log,
      e.isCouponLookup = false ∧ e.isPersist = false ∧ e.isPayment = false := by
  simp [createOrder, huser, haddr, Effect.isCouponLookup, Effect.isPersist, Effect.isPayment]

/-- C4 on the sample store: user 2 has no shipping address. -/
theorem createOrder_no_shipping_address_witness :
    (createOrder sampleWorld sampleStore ⟨2, some sampleItems, some "save20"⟩).status
      = some 400 ∧
    (createOrder sampleWorld sampleStore ⟨2, some sampleItems, some "save20"⟩).reply
      = .thrown "Please add a shipping address" ∧
    (createOrder sampleWorld sampleStore ⟨2, some sampleItems, some "save20"⟩).orders = [] ∧
    ∀ e ∈ (createOrder sampleWorld sampleStore ⟨2, some sampleItems, some "save20"⟩).log,
      e.isCouponLookup = false ∧ e.isPersist = false ∧ e.isPayment = false :=
  createOrder_no_shipping_address sampleWorld sampleStore
    ⟨2, some sampleItems, some "save20"⟩ ⟨2, false, ""⟩ rfl rfl

/-- C5: for a user with a shipping address, a non-empty item list and a supplied
coupon code: when the lookup finds no coupon the handler sets status 400 and
throws "Coupon not found"; when the coupon found is expired it sets status 400
and throws "Coupon is Expired"; in both cases the order collection is unchanged
and nothing is persisted or sent to checkout. And whenever an order is added,
the lookup found an unexpired coupon, which the order references and by which
its total is discounted. -/
theorem createOrder_coupon_rejections (w : Collaborators) (db : Store) (req : Request)
    (user : User) (item : OrderItem) (rest : List OrderItem) (code : String)
    (huser : User.findById db.users req.user = some user)
    (haddr : user.hasShippingAddress = true)
    (hitems : req.orderItems = some (item :: rest))
    (hcoupon : req.coupon = some code) (hcode : code ≠ "") :
    (Coupon.findOne db.coupons (toUpperCase w.upperOther code) = none →
      (createOrder w db req).status = some 400 ∧
      (createOrder w db req).reply = .thrown "Coupon not found" ∧
      (createOrder w db req).orders = db.orders ∧
      ∀ e ∈ (createOrder w db req).log, e.isPersist = false ∧ e.isPayment = false) ∧
    (∀ c, Coupon.findOne db.coupons (toUpperCase w.upperOther code) = some c →
      c.IsExpired = true →
      (createOrder w db req).status = some 400 ∧
      (createOrder w db req).reply = .thrown "Coupon is Expired" ∧
      (createOrder w db req).orders = db.orders ∧
      ∀ e ∈ (createOrder w db req).log, e.isPersist = false ∧ e.isPayment = false) ∧
    (∀ o, (createOrder w db req).orders = db.orders ++ [o] →
      ∃ c, Coupon.findOne db.coupons (toUpperCase w.upperOther code) = some c ∧
        c.IsExpired = false ∧ o.coupon = some c._id ∧
        o.totalPrice = reduceTotal (item :: rest)
          - reduceTotal (item :: rest) * c.discount / 100) := by
  refine ⟨fun hnone => ?_, fun c hfound hexp => ?_, fun o ho => ?_⟩
  · simp [createOrder, huser, haddr, hitems, hcoupon, hcode, hnone,
      Effect.isPersist, Effect.isPayment]
  · simp [createOrder, huser, haddr, hitems, hcoupon, hcode, hfound, hexp,
      Effect.isPersist, Effect.isPayment]
  · cases hfound : Coupon.findOne db.coupons (toUpperCase w.upperOther code) with
    | none =>
      simp [createOrder, huser, haddr, hitems, hcoupon, hcode, hfound] at ho
    | some c =>
      cases hexp : c.IsExpired with
      | true =>
        simp [createOrder, huser, haddr, hitems, hcoupon, hcode, hfound, hexp] at ho
      | false =>
        rw [createOrder_accepted_coupon w db req user item rest code c huser haddr hitems
          hcoupon hcode hfound hexp, persistAndCheckout_orders] at ho
        have ho2 := List.append_cancel_left ho
        simp only [List.cons.injEq, and_true] at ho2
        subst ho2
        exact ⟨c, rfl, hexp, rfl, rfl⟩

/-- C5 on the sample store: an unknown code, the expired coupon `OLD`, and the
accepted coupon `SAVE20`. -/
theorem createOrder_coupon_rejections_witness :
    (createOrder sampleWorld sampleStore ⟨1, some sampleItems, some "nope"⟩).reply
      = .thrown "Coupon not found" ∧
    (createOrder sampleWorld sampleStore ⟨1, some sampleItems, some "old"⟩).reply
      = .thrown "Coupon is Expired" ∧
    (createOrder sampleWorld sampleStore ⟨1, some sampleItems, some "old"⟩).orders = [] :=
  ⟨((createOrder_coupon_rejections sampleWorld sampleStore
      ⟨1, some sampleItems, some "nope"⟩ ⟨1, true, "1 Main St"⟩ _ _ "nope" rfl rfl rfl rfl
      (by decide)).1 (by decide)).2.1,
    ((createOrder_coupon_rejections sampleWorld sampleStore
      ⟨1, some sampleItems, some "old"⟩ ⟨1, true, "1 Main St"⟩ _ _ "old" rfl rfl rfl rfl
      (by decide)).2.1 ⟨8, "OLD", 50, true⟩ (by decide) rfl).2.1,
    ((createOrder_coupon_rejections sampleWorld sampleStore
      ⟨1, some sampleItems, some "old"⟩ ⟨1, true, "1 Main St"⟩ _ _ "old" rfl rfl rfl rfl
      (by decide)).2.1 ⟨8, "OLD", 50, true⟩ (by decide) rfl).2.2.1⟩

/-! ## Case of coupon codes -/

theorem findByIdAndUpdate_found (id : Nat) (status : String) (o : Order)
    (post : List Order) (ho : o._id = id) :
    ∀ pre : List Order, (∀ x ∈ pre, x._id ≠ id) →
      Order.findByIdAndUpdate id status (pre ++ o :: post)
        = (some (o.setStatus status), pre ++ o.setStatus status :: post)
  | [], _ => by simp [Order.findByIdAndUpdate, ho]
  | x :: pre, h => by
    have hx : x._id ≠ id := h x (List.mem_cons_self x pre)
    have ih := findByIdAndUpdate_found id status o post ho pre
      (fun y hy => h y (List.mem_cons_of_mem x hy))
    simp [Order.findByIdAndUpdate, hx, ih]

theorem findByIdAndUpdate_absent (id : Nat) (status : String) :
    ∀ orders : List Order, (∀ x ∈ orders, x._id ≠ id) →
      Order.findByIdAndUpdate id status orders = (none, orders)
  | [], _ => rfl
  | x :: rest, h => by
    have hx : x._id ≠ id := h x (List.mem_cons_self x rest)
    have ih := findByIdAndUpdate_absent id status rest
      (fun y hy => h y (List.mem_cons_of_mem x hy))
    simp [Order.findByIdAndUpdate, hx, ih]

/-- C7: when the collection holds an order with the given id (the first such
order `o`, between `pre` and `post`), `updateOrderStatus` sends the success body
with `o` carrying the new status, whatever the old status and the new string
are, and the collection afterwards differs only in that order's status; when no
order has the id, it sets status 404, throws "Order not found" and leaves the
collection unchanged. -/
theorem updateOrderStatus_frame (db : Store) (id : Nat) (status : String) :
    (∀ pre o post, db.orders = pre ++ o :: post → (∀ x ∈ pre, x._id ≠ id) → o._id = id →
      (updateOrderStatus db id status).reply
        = .sent { success := true, message := "Order updated",
                  updateOrder := o.setStatus status } ∧
      (updateOrderStatus db id status).orders = pre ++ o.setStatus status :: post ∧
      (o.setStatus status).status = status ∧
      (o.setStatus status)._id = o._id ∧ (o.setStatus status).user = o.user ∧
      (o.setStatus status).orderItems = o.orderItems ∧
      (o.setStatus status).shippingAddress = o.shippingAddress ∧
      (o.setStatus status).totalPrice = o.totalPrice ∧
      (o.setStatus status).coupon = o.coupon) ∧
    ((∀ x ∈ db.orders, x._id ≠ id) →
      (updateOrderStatus db id status).status = some 404 ∧
      (updateOrderStatus db id status).reply = .thrown "Order not found" ∧
      (updateOrderStatus db id status).orders = db.orders) := by
  refine ⟨fun pre o post hsplit hpre ho => ?_, fun habsent => ?_⟩
  · simp [updateOrderStatus, hsplit, findByIdAndUpdate_found id status o post ho pre hpre,
      Order.setStatus]
  · simp [updateOrderStatus, findByIdAndUpdate_absent id status db.orders habsent]

/-- C7 on the sample orders: order 11 goes from "shipped" to an arbitrary string,
and id 12 matches no order. -/
theorem updateOrderStatus_frame_witness :
    (updateOrderStatus orderStore 11 "anything at all").orders
      = [{ _id := 10, user := 1, orderItems := sampleItems, shippingAddress := "1 Main St",
           totalPrice := 45, coupon := none, status := "pending" },
         { _id := 11, user := 1, orderItems := hundredItems, shippingAddress := "1 Main St",
           totalPrice := 90, coupon := some 3, status := "anything at all" }] ∧
    (updateOrderStatus orderStore 12 "paid").status = some 404 ∧
    (updateOrderStatus orderStore 12 "paid").orders = sampleOrders :=
  ⟨((updateOrderStatus_frame orderStore 11 "anything at all").1
      [{ _id := 10, user := 1, orderItems := sampleItems, shippingAddress := "1 Main St",
         totalPrice := 45, coupon := none, status := "pending" }]
      { _id := 11, user := 1, orderItems := hundredItems, shippingAddress := "1 Main St",
        totalPrice := 90, coupon := some 3, status := "shipped" }
      [] rfl (by simp) rfl).2.1,
    ((updateOrderStatus_frame orderStore 12 "paid").2
      (by simp [orderStore, sampleOrders])).1,
    ((updateOrderStatus_frame orderStore 12 "paid").2
      (by simp [orderStore, sampleOrders])).2.2⟩

/-! ## Failure semantics of createOrder -/

theorem persistAndCheckout_log (w : Collaborators) (db : Store) (req : Request)
    (user : User) (orderItems : List OrderItem) (totalPrice : ℚ)
    (couponFound : Option Coupon) (log : List Effect) :
    (persistAndCheckout w db req user orderItems totalPrice couponFound log).log
      = log ++ [Effect.orderCreate (newOrder w db req user orderItems totalPrice couponFound),
          Effect.checkoutSessionCreate
            (sessionParams (newOrder w db req user orderItems totalPrice couponFound)
              orderItems totalPrice)] := by
  unfold persistAndCheckout
  dsimp only
  split <;> rfl

theorem persistAndCheckout_thrown (w : Collaborators) (db : Store) (req : Request)
    (user : User) (orderItems : List OrderItem) (totalPrice : ℚ)
    (couponFound : Option Coupon) (log : List Effect) (m : String)
    (h : (persistAndCheckout w db req user orderItems totalPrice couponFound log).reply
      = .thrown m) :
    w.checkout (sessionParams (newOrder w db req user orderItems totalPrice couponFound)
      orderItems totalPrice) = .error m := by
  unfold persistAndCheckout at h
  dsimp only at h
  split at h
  · rename_i message hc
    simp only [Reply.thrown.injEq] at h
    rw [hc, h]
  · simp at h

/-- C8: when `createOrder` throws and its log holds no order creation, the order
collection is unchanged. When it throws and its log holds a checkout call, that
call is the one that threw, and the collection is the old one followed by exactly
one new order; that order carries the computed total (the subtotal, less the
percentage of the accepted coupon if a code was supplied) and the coupon
reference, and the total sent to checkout is 100 times the stored one. -/
theorem createOrder_failure_semantics (w : Collaborators) (db : Store) (req : Request)
    (m : String) (hthrown : (createOrder w db req).reply = .thrown m) :
    ((∀ e ∈ (createOrder w db req).log, e.isPersist = false) →
      (createOrder w db req).orders = db.orders) ∧
    ((∃ e ∈ (createOrder w db req).log, e.isPayment = true) →
      ∃ o p items,
        (createOrder w db req).orders = db.orders ++ [o] ∧
        Effect.orderCreate o ∈ (createOrder w db req).log ∧
        Effect.checkoutSessionCreate p ∈ (createOrder w db req).log ∧
        w.checkout p = .error m ∧
        p.total_price = o.totalPrice * 100 ∧
        req.orderItems = some items ∧
        (((req.coupon = none ∨ req.coupon = some "") ∧ o.coupon = none ∧
            o.totalPrice = (items.map (fun i => i.price * i.quantity)).sum) ∨
          ∃ code c, req.coupon = some code ∧ code ≠ "" ∧
            Coupon.findOne db.coupons (toUpperCase w.upperOther code) = some c ∧
            c.IsExpired = false ∧ o.coupon = some c._id ∧
            o.totalPrice = (items.map (fun i => i.price * i.quantity)).sum
              - (items.map (fun i => i.price * i.quantity)).sum * c.discount / 100)) := by
  cases huser : User.findById db.users req.user with
  | none => simp [createOrder, huser, Effect.isPayment]
  | some user =>
    cases haddr : user.hasShippingAddress with
    | false => simp [createOrder, huser, haddr, Effect.isPayment]
    | true =>
      cases hitems : req.orderItems with
      | none => simp [createOrder, huser, haddr, hitems, Effect.isPayment]
      | some items =>
        cases items with
        | nil => simp [createOrder, huser, haddr, hitems, Effect.isPayment]
        | cons item rest =>
          by_cases hno : req.coupon = none ∨ req.coupon = some ""
          · have hrun := createOrder_no_coupon w db req user item rest huser haddr hitems hno
            rw [hrun] at hthrown
            rw [hrun, persistAndCheckout_log, persistAndCheckout_orders]
            refine ⟨fun hlog => ?_, fun _ => ?_⟩
            · have := hlog _ (List.mem_append_right _ (List.mem_cons_self _ _))
              simp [Effect.isPersist] at this
            · exact ⟨_, _, item :: rest, rfl, by simp, by simp,
                persistAndCheckout_thrown _ _ _ _ _ _ _ _ _ hthrown, rfl, rfl,
                Or.inl ⟨hno, rfl, reduceTotal_eq_sum _⟩⟩
          · cases hcoupon : req.coupon with
            | none => exact absurd (Or.inl hcoupon) hno
            | some code =>
              have hcode : code ≠ "" := fun h => hno (Or.inr (by rw [hcoupon, h]))
              cases hfound : Coupon.findOne db.coupons (toUpperCase w.upperOther code) with
              | none =>
                simp [createOrder, huser, haddr, hitems, hcoupon, hcode, hfound,
                  Effect.isPayment]
              | some c =>
                cases hlive : c.IsExpired with
                | true =>
                  simp [createOrder, huser, haddr, hitems, hcoupon, hcode, hfound, hlive,
                    Effect.isPayment]
                | false =>
                  have hrun := createOrder_accepted_coupon w db req user item rest code c
                    huser haddr hitems hcoupon hcode hfound hlive
                  rw [hrun] at hthrown
                  rw [hrun, persistAndCheckout_log, persistAndCheckout_orders]
                  refine ⟨fun hlog => ?_, fun _ => ?_⟩
                  · have := hlog _ (List.mem_append_right _ (List.mem_cons_self _ _))
                    simp [Effect.isPersist] at this
                  · refine ⟨_, _, item :: rest, rfl, by simp, by simp,
                      persistAndCheckout_thrown _ _ _ _ _ _ _ _ _ hthrown, rfl, rfl,
                      Or.inr ⟨code, c, rfl, hcode, hfound, hlive, rfl, ?_⟩⟩
                    simp only [newOrder, reduceTotal_eq_sum]

/-- C8 on the sample store: with a payment provider that throws, the request with
the 20 percent coupon leaves one new order of total 36 referencing coupon 7;
the request with the expired coupon leaves the collection as it was. -/
theorem createOrder_failure_semantics_witness :
    (createOrder failingWorld sampleStore ⟨1, some sampleItems, some "save20"⟩).reply
      = .thrown "StripeConnectionError" ∧
    (∃ o, (createOrder failingWorld sampleStore ⟨1, some sampleItems, some "save20"⟩).orders
      = sampleStore.orders ++ [o] ∧ o.totalPrice = 36 ∧ o.coupon = some 7) ∧
    (createOrder sampleWorld sampleStore ⟨1, some sampleItems, some "old"⟩).reply
      = .thrown "Coupon is Expired" ∧
    (createOrder sampleWorld sampleStore ⟨1, some sampleItems, some "old"⟩).orders
      = sampleStore.orders := by
  have hrun := createOrder_accepted_coupon failingWorld sampleStore
    ⟨1, some sampleItems, some "save20"⟩ ⟨1, true, "1 Main St"⟩ _ _ "save20"
    ⟨7, "SAVE20", 20, false⟩ rfl rfl rfl rfl (by decide) (by decide) rfl
  have hthrown : (createOrder failingWorld sampleStore
      ⟨1, some sampleItems, some "save20"⟩).reply = .thrown "StripeConnectionError" := by
    rw [hrun]; rfl
  have hpay : ∃ e ∈ (createOrder failingWorld sampleStore
      ⟨1, some sampleItems, some "save20"⟩).log, e.isPayment = true := by
    rw [hrun, persistAndCheckout_log]
    simp [Effect.isPayment]
  have hold : (createOrder sampleWorld sampleStore
      ⟨1, some sampleItems, some "old"⟩).reply = .thrown "Coupon is Expired" := by
    decide
  have hlog : ∀ e ∈ (createOrder sampleWorld sampleStore
      ⟨1, some sampleItems, some "old"⟩).log, e.isPersist = false := by
    decide
  obtain ⟨o, p, items, ho, -, -, -, -, hitems, hcases⟩ :=
    (createOrder_failure_semantics failingWorld sampleStore
      ⟨1, some sampleItems, some "save20"⟩ "StripeConnectionError" hthrown).2 hpay
  refine ⟨hthrown, ⟨o, ho, ?_⟩, hold,
    (createOrder_failure_semantics sampleWorld sampleStore
      ⟨1, some sampleItems, some "old"⟩ "Coupon is Expired" hold).1 hlog⟩
  simp only [Option.some.injEq] at hitems
  subst hitems
  rcases hcases with ⟨hno, -, -⟩ | ⟨code, c, hcoupon, -, hfound, -, hc, ht⟩
  · simp at hno
  · simp only [Option.some.injEq] at hcoupon
    subst hcoupon
    have hc7 : Coupon.findOne sampleStore.coupons (toUpperCase failingWorld.upperOther "save20")
        = some ⟨7, "SAVE20", 20, false⟩ := by decide
    rw [hc7] at hfound
    simp only [Option.some.injEq] at hfound
    subst hfound
    refine ⟨?_, hc⟩
    rw [ht]
    norm_num [sampleItems]

/-! ## The checkout amount -/

theorem lineItemsAmount_lineItems (orderItems : List OrderItem) :
    lineItemsAmount (lineItems orderItems) = reduceTotal orderItems * 100 := by
  rw [reduceTotal_eq_sum]
  induction orderItems with
  | nil => simp [lineItemsAmount, lineItems]
  | cons i rest ih =>
    simp only [lineItemsAmount, lineItems, List.map_cons, List.sum_cons] at ih ⊢
    rw [ih]
    ring

/-- C9, evaluated on the example items with the 20 percent coupon: the request
succeeds, the stored total is 36 and the metadata `total_price` is 3600, but the
checkout line items add up to 4500, the undiscounted subtotal in cents. -/
theorem createOrder_checkout_amount_with_coupon :
    (createOrder sampleWorld sampleStore ⟨1, some sampleItems, some "save20"⟩).reply
      = .sent "https://checkout.example/session" ∧
    (createOrder sampleWorld sampleStore ⟨1, some sampleItems, some "save20"⟩).orders.map
      (fun o => o.totalPrice) = [36] ∧
    (checkoutCalls
      (createOrder sampleWorld sampleStore ⟨1, some sampleItems, some "save20"⟩).log).map
      (fun p => p.total_price) = [3600] ∧
    (checkoutCalls
      (createOrder sampleWorld sampleStore ⟨1, some sampleItems, some "save20"⟩).log).map
      (fun p => lineItemsAmount p.line_items) = [4500] := by
  have hrun := createOrder_accepted_coupon sampleWorld sampleStore
    ⟨1, some sampleItems, some "save20"⟩ ⟨1, true, "1 Main St"⟩ _ _ "save20"
    ⟨7, "SAVE20", 20, false⟩ rfl rfl rfl rfl (by decide) (by decide) rfl
  rw [hrun, persistAndCheckout_log, persistAndCheckout_orders]
  refine ⟨rfl, ?_, ?_, ?_⟩
  · norm_num [sampleStore, newOrder, reduceTotal]
  · simp only [checkoutCalls, List.filterMap_append, List.filterMap_cons, List.filterMap_nil,
      List.nil_append, List.map_cons, List.map_nil, sessionParams]
    norm_num [reduceTotal]
  · simp only [checkoutCalls, List.filterMap_append, List.filterMap_cons, List.filterMap_nil,
      List.nil_append, List.map_cons, List.map_nil, sessionParams, lineItemsAmount_lineItems]
    norm_num [reduceTotal]

/-! ## Pagination of getProducts -/

end Novotech
